import Mathlib

/-!
# std-netpoll: listener construction, TCP dial, server accept loop and graceful close

A shallow embedding of `net_listener.go`, `net_tcpsock.go`, `net_netfd.go` and
`netpoll_server.go`.

* Go `error` values are records of the observations the code makes on them
  (`Error()`, the `*net.OpError` type assertion, `Temporary()`, `Timeout()`).
* A Go call either returns or panics (`GoResult`).
* Pointers that may be `nil` are `Option`s.
* Effects on collaborators (listener, operator, quit callback, logger,
  connections) are recorded as a list of `Event`s in program order; the
  results the collaborators hand back are inputs (scripts).
-/

set_option linter.dupNamespace false

namespace Netpoll

/-! ## Go values -/

/-- A non-nil Go `error`, described by what the code observes of it. -/
structure GoError where
  /-- Text of `err.Error()` -/
  msg : String
  /-- Whether `err.(*net.OpError)` succeeds -/
  isOpError : Bool
  /-- Whether the error reports `Temporary() = true`, whatever its dynamic type; the
  code asks only after the `*net.OpError` assertion has succeeded -/
  temporary : Bool
  /-- Whether the error reports `Timeout() = true`, whatever its dynamic type; the
  code asks only after the `*net.OpError` assertion has succeeded -/
  timeout : Bool
deriving DecidableEq, Repr

/-- Outcome of a Go call: a normal return or a run-time panic. -/
inductive GoResult (α : Type) where
  | ret (a : α)
  | panic (what : String)
deriving DecidableEq, Repr

/-- Whether `pre` is an initial segment of `l`. -/
def startsWith : List Char → List Char → Bool
  | [], _ => true
  | _ :: _, [] => false
  | p :: ps, c :: cs => p == c && startsWith ps cs

/-- Whether `sub` occurs in `l` as a contiguous block. -/
def containsChars (sub : List Char) : List Char → Bool
  | [] => startsWith sub []
  | c :: cs => startsWith sub (c :: cs) || containsChars sub cs

/-- Go `strings.Contains(s, substr)`. -/
def stringsContains (s substr : String) : Bool :=
  containsChars substr.toList s.toList

/-- Panic text of the Go runtime for a nil pointer dereference. -/
def nilDereference : String :=
  "runtime error: invalid memory address or nil pointer dereference"

/-! ## net_netfd.go -/

/-- The package variable `errMissingAddress = errors.New("missing address")`. -/
def errMissingAddress : GoError :=
  { msg := "missing address", isOpError := false, temporary := false, timeout := false }

/-! ## net_listener.go -/

/-- A `net.Listener` handed back by the standard library, identified by a handle. -/
structure NetListener where
  handle : Nat
deriving DecidableEq, Repr

/-- The package type `listener`, wrapping a `net.Listener`. -/
structure Listener where
  Listener : NetListener
deriving DecidableEq, Repr

/-- Return values `(l Listener, err error)`; `none` is `nil`. -/
abbrev ListenerResult := GoResult (Option Listener × Option GoError)

/-- Function `ConvertListener`: wraps a `net.Listener`, never fails. -/
def ConvertListener (l : NetListener) : ListenerResult :=
  .ret (some { Listener := l }, none)

/-- Function `udpListener`: its body is `panic("not implement")`. -/
def udpListener (_network _addr : String) : ListenerResult :=
  .panic "not implement"

/-- Function `CreateListener`; `netListen` stands for the standard library `net.Listen`. -/
def CreateListener (netListen : String → String → Except GoError NetListener)
    (network addr : String) : ListenerResult :=
  if network = "udp" then
    udpListener network addr
  else
    match netListen network addr with
    | .error err => .ret (none, some err)
    | .ok ln => ConvertListener ln

/-! ## net_tcpsock.go -/

/-- The package type `TCPAddr`, embedding `net.TCPAddr` by value. -/
structure TCPAddr where
  ip : List Nat
  port : Nat
  zone : String
deriving DecidableEq, Repr

/-- The package type `TCPConnection`, identified by the descriptor it wraps. -/
structure TCPConnection where
  fd : Int
deriving DecidableEq, Repr

/-- The `*net.OpError` built by `DialTCP`: `Op`, `Net`, `Source`, `Addr`, `Err`. -/
structure OpError where
  op : String
  net : String
  source : TCPAddr
  addr : Option TCPAddr
  err : GoError
deriving DecidableEq, Repr

/-- A non-nil `error` returned by `DialTCP`. -/
inductive DialError where
  /-- A `*net.OpError` built by `DialTCP` itself -/
  | op (e : OpError)
  /-- The error of `newTCPConnection`, passed on as it is -/
  | wrap (e : GoError)
deriving DecidableEq, Repr

/-- Return values `(*TCPConnection, error)` of `DialTCP`; `none` is `nil`. -/
abbrev DialResult := GoResult (Option TCPConnection × Option DialError)

/-- The expression `&a.TCPAddr` for `a : *TCPAddr`: selecting the embedded field
through a nil pointer is a run-time panic; otherwise it yields the field's address. -/
def fieldTCPAddr (a : Option TCPAddr) : GoResult TCPAddr :=
  match a with
  | none => .panic nilDereference
  | some x => .ret x

/-- Sequencing of Go evaluations: a panic aborts what follows. -/
def GoResult.andThen {α β : Type} (r : GoResult α) (k : α → GoResult β) : GoResult β :=
  match r with
  | .ret a => k a
  | .panic w => .panic w

/-- Value `net.UnknownNetworkError(network)`. -/
def unknownNetworkError (network : String) : GoError :=
  { msg := "unknown network " ++ network, isOpError := false, temporary := false,
    timeout := false }

/-- Function `newTCPConnection`, given the result of `connection.init` on the socket
with descriptor `fd`. -/
def newTCPConnection (init : Int → Option GoError) (fd : Int) :
    Option TCPConnection × Option DialError :=
  match init fd with
  | some err => (none, some (.wrap err))
  | none => (some { fd := fd }, none)

/-- Function `DialTCP`. `netDialTCP` stands for the standard library `net.DialTCP`,
giving the descriptor of the dialed socket, and `init` for `connection.init`. The
fields of each `&net.OpError{...}` literal are evaluated in the order written. The
context argument plays no part in the result. -/
def DialTCP (netDialTCP : String → TCPAddr → TCPAddr → Except GoError Int)
    (init : Int → Option GoError)
    (network : String) (laddr raddr : Option TCPAddr) : DialResult :=
  if network = "tcp" ∨ network = "tcp4" ∨ network = "tcp6" then
    if raddr = none then
      (fieldTCPAddr laddr).andThen fun src =>
        .ret (none, some (.op { op := "dial", net := network, source := src, addr := none,
                                err := errMissingAddress }))
    else
      (fieldTCPAddr laddr).andThen fun l =>
      (fieldTCPAddr raddr).andThen fun r =>
        match netDialTCP network l r with
        | .error err =>
          (fieldTCPAddr laddr).andThen fun src =>
          (fieldTCPAddr raddr).andThen fun dst =>
            .ret (none, some (.op { op := "dial", net := network, source := src,
                                    addr := some dst, err := err }))
        | .ok c => .ret (newTCPConnection init c)
  else
    (fieldTCPAddr laddr).andThen fun src =>
    (fieldTCPAddr raddr).andThen fun dst =>
      .ret (none, some (.op { op := "dial", net := network, source := src,
                              addr := some dst, err := unknownNetworkError network }))

/-! ## netpoll_server.go -/

/-- A `*connection` as the server observes it. -/
structure Connection where
  /-- Descriptor `conn.(Conn).Fd()`, the key under which the server stores it -/
  fd : Int
  /-- Result of `IsActive()` once `connection.init` has run -/
  active : Bool
  /-- Whether the assertion `value.(gracefulExit)` succeeds -/
  graceful : Bool
  /-- Result of `isIdle()` -/
  idle : Bool
deriving DecidableEq, Repr

/-- Calls made on the server's collaborators, in program order. -/
inductive Event where
  /-- Call `s.operator.Control(PollReadable)` -/
  | controlReadable
  /-- Call `s.operator.Control(PollDetach)` -/
  | controlDetach
  /-- Call `s.onQuit(err)` -/
  | onQuit (err : GoError)
  /-- The `go func()` statement of `Run` -/
  | goAcceptLoop
  /-- Call `s.ln.Accept()` -/
  | accept
  /-- Call `logger.Println("NETPOLL: accept conn failed:", msg)` -/
  | logAcceptFailed (msg : String)
  /-- Call `time.Sleep(time.Second)` -/
  | sleep
  /-- Call `s.ln.Close()` -/
  | lnClose
  /-- Call `time.NewTicker(time.Second)` -/
  | newTicker
  /-- Deferred `ticker.Stop()` -/
  | tickerStop
  /-- Call `connection.init(conn, s.opts)` -/
  | connInit (fd : Int)
  /-- The `go func()` statement of `OnRead` starting the reading loop -/
  | goReader (fd : Int)
  /-- Call `connection.AddCloseCallback(...)` -/
  | addCloseCallback (fd : Int)
  /-- Call `s.connections.Store(fd, connection)` -/
  | store (fd : Int)
  /-- Call `s.connections.Delete(fd)`, made by the close callback -/
  | delete (fd : Int)
  /-- Call `connection.onConnect()` -/
  | onConnect (fd : Int)
  /-- Call `s.connections.Range(...)` on a map holding `size` entries -/
  | rangeBegin (size : Nat)
  /-- One invocation of the function passed to `Range`, on key `fd` -/
  | rangeVisit (fd : Int)
  /-- Call `Close()` on the connection with descriptor `fd` -/
  | connClose (fd : Int)
  /-- Call `c.Conn.SetReadDeadline(...)` -/
  | setReadDeadline (fd : Int)
  /-- Call `c.Conn.Read(bs[0])` -/
  | read (fd : Int)
  /-- Call `c.inputAck(n)` -/
  | inputAck (fd : Int) (n : Nat)
deriving DecidableEq, Repr

/-- The field `connections sync.Map` (key = fd, value = connection): the values, each
carrying its key. -/
abbrev Registry := List Connection

/-- Method `sync.Map.Delete(fd)`. -/
def Registry.delete (m : Registry) (fd : Int) : Registry :=
  m.filter fun c => decide (c.fd ≠ fd)

/-- Method `sync.Map.Store(fd, connection)`: replaces the value held under the key. -/
def Registry.store (m : Registry) (c : Connection) : Registry :=
  m.delete c.fd ++ [c]

/-- What one call `s.ln.Accept()` hands back. -/
inductive AcceptResult where
  /-- A non-nil error -/
  | failed (err : GoError)
  /-- Both the connection and the error are nil -/
  | nilConn
  /-- A socket; `c` describes the connection `connection.init` makes of it -/
  | conn (c : Connection)
deriving DecidableEq, Repr

/-- Effects and return value of one call of `server.OnRead`. -/
structure OnReadOut where
  connections : Registry
  events : List Event
  err : Option GoError
deriving DecidableEq, Repr

/-- Method `server.OnRead`, given the result of its `Accept` call. -/
def OnRead (acc : AcceptResult) (conns : Registry) : OnReadOut :=
  match acc with
  | .failed err =>
    if stringsContains err.msg "closed" then
      { connections := conns, events := [.accept, .controlDetach, .onQuit err],
        err := some err }
    else
      { connections := conns, events := [.accept, .logAcceptFailed err.msg],
        err := some err }
  | .nilConn => { connections := conns, events := [.accept], err := none }
  | .conn c =>
    if !c.active then
      { connections := conns, events := [.accept, .connInit c.fd], err := none }
    else
      { connections := conns.store c,
        events := [.accept, .connInit c.fd, .goReader c.fd, .addCloseCallback c.fd,
                   .store c.fd, .onConnect c.fd],
        err := none }

/-- Where the goroutine started by `Run` stands once the scripted accepts are used up. -/
inductive LoopStatus where
  /-- The goroutine executed `return` -/
  | returned
  /-- The goroutine is inside `s.ln.Accept()`, waiting -/
  | accepting
deriving DecidableEq, Repr

/-- Effects and final status of the accept loop. -/
structure LoopOut where
  connections : Registry
  events : List Event
  status : LoopStatus
deriving DecidableEq, Repr

/-- Puts the events `evs` in front of those of `o`. -/
def LoopOut.after (evs : List Event) (o : LoopOut) : LoopOut :=
  { o with events := evs ++ o.events }

/-- The body of the goroutine started by `Run`: `for { err := s.OnRead(nil); ... }`,
run against the successive results of `Accept`. -/
def acceptLoop : List AcceptResult → Registry → LoopOut
  | [], conns => { connections := conns, events := [.accept], status := .accepting }
  | acc :: rest, conns =>
    let o := OnRead acc conns
    match o.err with
    | none => (acceptLoop rest o.connections).after o.events
    | some err =>
      if err.isOpError && err.temporary then
        (acceptLoop rest o.connections).after (o.events ++ [.sleep])
      else
        { connections := o.connections, events := o.events, status := .returned }

/-- Effects and return value of `server.Run`, with the goroutine it starts. -/
structure RunOut where
  connections : Registry
  events : List Event
  err : Option GoError
  loop : LoopStatus
deriving DecidableEq, Repr

/-- Method `server.Run`. `control` is the result of `s.operator.Control(PollReadable)` and
`accepts` the successive results of `Accept` seen by the goroutine. -/
def Run (control : Option GoError) (accepts : List AcceptResult) (conns : Registry) :
    RunOut :=
  let quit : List Event :=
    match control with
    | some err => [.onQuit err]
    | none => []
  let l := acceptLoop accepts conns
  { connections := l.connections,
    events := [.controlReadable] ++ quit ++ [.goAcceptLoop] ++ l.events,
    err := control,
    loop := l.status }

/-- Modelled from the spec: `connection.Close`, whose implementation is not among the
sources. Close callbacks run exactly once, when the connection goes from active to
closed; the callback `OnRead` registers is `s.connections.Delete(fd)`. Returns the
registry and the calls made. -/
def Connection.Close (c : Connection) (conns : Registry) : Registry × List Event :=
  if c.active then
    (conns.delete c.fd, [.connClose c.fd, .delete c.fd])
  else
    (conns, [.connClose c.fd])

/-- Effects of one `s.connections.Range(...)` in `Close`, with the flag `hasConn`. -/
structure SweepOut where
  connections : Registry
  events : List Event
  hasConn : Bool
deriving DecidableEq, Repr

/-- The function passed to `Range`, applied in turn to the entries `todo` still to be
visited, `conns` being the current content of the map. It returns `true` every time,
so the iteration never stops early. -/
def rangeVisits : List Connection → Registry → SweepOut
  | [], conns => { connections := conns, events := [], hasConn := false }
  | c :: todo, conns =>
    let closed : Registry × List Event :=
      if !c.graceful || c.idle then c.Close conns else (conns, [])
    let t := rangeVisits todo closed.1
    { connections := t.connections,
      events := .rangeVisit c.fd :: closed.2 ++ t.events,
      hasConn := true }

/-- One pass of the loop of `Close`: `hasConn = false` followed by the `Range` call. -/
def sweep (conns : Registry) : SweepOut :=
  let t := rangeVisits conns conns
  { t with events := .rangeBegin conns.length :: t.events }

/-- Which case of the `select` in `Close` fires. -/
inductive SelectCase where
  /-- Case `<-ctx.Done()`; `err` is the non-nil `ctx.Err()` -/
  | ctxDone (err : GoError)
  /-- Case `<-ticker.C` -/
  | tick
deriving DecidableEq, Repr

/-- What other goroutines do to the registry while `Close` waits in its `select`. -/
inductive Change where
  /-- The connection under `fd` starts reporting `isIdle() = idle` -/
  | setIdle (fd : Int) (idle : Bool)
  /-- The connection under `fd` is closed by its reading loop and deregisters itself -/
  | closed (fd : Int)
deriving DecidableEq, Repr

/-- Effect of one `Change` on the registry. -/
def Change.apply (ch : Change) (conns : Registry) : Registry :=
  match ch with
  | .setIdle fd idle => conns.map fun c => if c.fd = fd then { c with idle := idle } else c
  | .closed fd => conns.delete fd

/-- Effect of a list of changes, in order. -/
def applyChanges (chs : List Change) (conns : Registry) : Registry :=
  chs.foldl (fun m ch => ch.apply m) conns

/-- One wait of `Close` in its `select`: what happens meanwhile and which case fires. -/
structure Round where
  changes : List Change
  select : SelectCase
deriving DecidableEq, Repr

/-- Where `Close` stands once the scripted rounds are used up. -/
inductive CloseStatus where
  /-- The method returned `err` (`none` is `nil`) -/
  | returned (err : Option GoError)
  /-- The method is waiting in its `select` -/
  | waiting
deriving DecidableEq, Repr

/-- Effects and status of `server.Close`. -/
structure CloseOut where
  connections : Registry
  events : List Event
  status : CloseStatus
deriving DecidableEq, Repr

/-- Puts the events `evs` in front of those of `o`. -/
def CloseOut.after (evs : List Event) (o : CloseOut) : CloseOut :=
  { o with events := evs ++ o.events }

/-- The `for` loop of `Close`, with the deferred `ticker.Stop()` on return. -/
def closeLoop : List Round → Registry → CloseOut
  | [], conns =>
    let sw := sweep conns
    if !sw.hasConn then
      { connections := sw.connections, events := sw.events ++ [.tickerStop],
        status := .returned none }
    else
      { connections := sw.connections, events := sw.events, status := .waiting }
  | r :: rest, conns =>
    let sw := sweep conns
    if !sw.hasConn then
      { connections := sw.connections, events := sw.events ++ [.tickerStop],
        status := .returned none }
    else
      match r.select with
      | .ctxDone err =>
        { connections := applyChanges r.changes sw.connections,
          events := sw.events ++ [.tickerStop],
          status := .returned (some err) }
      | .tick => (closeLoop rest (applyChanges r.changes sw.connections)).after sw.events

/-- Method `server.Close`: detaches the operator, closes the listener, starts the
ticker and runs the loop. -/
def Close (rounds : List Round) (conns : Registry) : CloseOut :=
  (closeLoop rounds conns).after [.controlDetach, .lnClose, .newTicker]

/-- What one iteration of the reading loop of `OnRead` observes. -/
structure ReadIter where
  /-- Result of `c.IsActive()` in the loop condition -/
  active : Bool
  /-- Length `len(bs)` of what `c.inputs` offers -/
  space : Nat
  /-- Error returned by `SetReadDeadline`, if it is called -/
  deadlineErr : Option GoError
  /-- Result `(n2, err)` of `c.Conn.Read(bs[0])` -/
  read : Except GoError Nat
  /-- Error returned by `c.inputAck(n2)` -/
  ackErr : Option GoError

/-- Where the reading goroutine stands once the scripted iterations are used up. -/
inductive ReaderStatus where
  /-- The goroutine left the loop and ran the deferred `c.Close()` -/
  | stopped
  /-- The goroutine is still in its loop -/
  | looping
deriving DecidableEq, Repr

/-- Effects and status of the reading goroutine. -/
structure ReaderOut where
  events : List Event
  status : ReaderStatus
deriving DecidableEq, Repr

/-- Puts the events `evs` in front of those of `o`. -/
def ReaderOut.after (evs : List Event) (o : ReaderOut) : ReaderOut :=
  { o with events := evs ++ o.events }

/-- The goroutine leaves its loop: the deferred `c.Close()` runs. -/
def readerStop (fd : Int) (evs : List Event) : ReaderOut :=
  { events := evs ++ [.connClose fd], status := .stopped }

/-- Calls made to arm the read deadline: none unless `c.readTimeout > 0`. -/
def deadlineEvents (fd : Int) (readTimeout : Nat) : List Event :=
  if readTimeout > 0 then [.setReadDeadline fd] else []

/-- The goroutine `go func() { c := connection; defer c.Close(); for c.IsActive() ... }`
of `OnRead`, for the connection with descriptor `fd` and field `readTimeout`. -/
def readLoop (fd : Int) (readTimeout : Nat) : List ReadIter → ReaderOut
  | [] => { events := [], status := .looping }
  | it :: rest =>
    if !it.active then
      readerStop fd []
    else if it.space > 0 then
      if readTimeout > 0 ∧ it.deadlineErr ≠ none then
        readerStop fd [.setReadDeadline fd]
      else
        let armed := deadlineEvents fd readTimeout
        match it.read with
        | .error err =>
          if err.isOpError && err.timeout then
            (readLoop fd readTimeout rest).after (armed ++ [.read fd, .sleep])
          else
            readerStop fd (armed ++ [.read fd])
        | .ok n2 =>
          match it.ackErr with
          | some _ => readerStop fd (armed ++ [.read fd, .inputAck fd n2])
          | none => (readLoop fd readTimeout rest).after (armed ++ [.read fd, .inputAck fd n2])
    else
      (readLoop fd readTimeout rest).after [.sleep]

/-- The key on which the function passed to `Range` was invoked, if the event is such
an invocation. -/
def visitedFd : Event → Option Int
  | .rangeVisit fd => some fd
  | _ => none

/-! ## Sample values -/

/-- A standard library stub for `net.Listen` that always succeeds. -/
def listenOk : String → String → Except GoError NetListener :=
  fun _ _ => .ok { handle := 3 }

/-- Accept failure of a Unix listener bound to `/tmp/closed.sock` when the process is
out of descriptors (`EMFILE`, which `Temporary()` reports as temporary). -/
def errTooManyFiles : GoError :=
  { msg := "accept unix /tmp/closed.sock: accept4: too many open files",
    isOpError := true, temporary := true, timeout := false }

/-- Accept failure on a listener that has been closed. -/
def errListenerClosed : GoError :=
  { msg := "accept tcp 127.0.0.1:8080: use of closed network connection",
    isOpError := true, temporary := false, timeout := false }

/-- Accept failure that is neither temporary nor about a closed listener. -/
def errInvalidArgument : GoError :=
  { msg := "accept tcp 127.0.0.1:8080: accept4: invalid argument",
    isOpError := true, temporary := false, timeout := false }

/-- Registration failure returned by `Control(PollReadable)`. -/
def errBadDescriptor : GoError :=
  { msg := "epoll_ctl: bad file descriptor", isOpError := false, temporary := false,
    timeout := false }

/-- An idle registered connection. -/
def connIdle : Connection := { fd := 5, active := true, graceful := true, idle := true }

/-- A registered connection in the middle of a read. -/
def connBusy : Connection := { fd := 6, active := true, graceful := true, idle := false }

/-- A read failure caused by the read deadline. -/
def errReadTimeout : GoError :=
  { msg := "read tcp 127.0.0.1:8080->127.0.0.1:51234: i/o timeout",
    isOpError := true, temporary := true, timeout := true }

/-- The error of a context whose deadline has passed. -/
def errDeadlineExceeded : GoError :=
  { msg := "context deadline exceeded", isOpError := false, temporary := false,
    timeout := false }

/-- An iteration of the reading loop in which the read times out. -/
def iterTimeout : ReadIter :=
  { active := true, space := 1, deadlineErr := none, read := .error errReadTimeout,
    ackErr := none }

/-- A read timeout handed back bare, as `os.ErrDeadlineExceeded`, by a connection that
does not wrap its errors in `*net.OpError` (a `net.Conn` of a listener adopted through
`ConvertListener`). -/
def errBareTimeout : GoError :=
  { msg := "i/o timeout", isOpError := false, temporary := true, timeout := true }

/-- An iteration of the reading loop in which the read fails with `errBareTimeout`. -/
def iterBareTimeout : ReadIter :=
  { active := true, space := 1, deadlineErr := none, read := .error errBareTimeout,
    ackErr := none }

/-- An iteration of the reading loop in which four bytes are read and acknowledged. -/
def iterFourBytes : ReadIter :=
  { active := true, space := 1, deadlineErr := none, read := .ok 4, ackErr := none }

/-! ## Helper lemmas -/

theorem acceptLoop_events_head (accepts : List AcceptResult) (conns : Registry) :
    ∃ tl, (acceptLoop accepts conns).events = Event.accept :: tl := by
  cases accepts with
  | nil => exact ⟨[], rfl⟩
  | cons acc rest =>
    cases acc with
    | failed err =>
      by_cases hc : stringsContains err.msg "closed" = true <;>
        by_cases ht : (err.isOpError && err.temporary) = true <;>
        simp [acceptLoop, OnRead, LoopOut.after, hc, ht]
    | nilConn => simp [acceptLoop, OnRead, LoopOut.after]
    | conn c =>
      by_cases ha : c.active = true <;> simp [acceptLoop, OnRead, LoopOut.after, ha]

theorem rangeVisits_connClose_mem (todo : List Connection) (m : Registry) (fd : Int) :
    Event.connClose fd ∈ (rangeVisits todo m).events ↔
      ∃ c ∈ todo, c.fd = fd ∧ (!c.graceful || c.idle) = true := by
  induction todo generalizing m with
  | nil => simp [rangeVisits]
  | cons c todo ih =>
    by_cases hcl : (!c.graceful || c.idle) = true <;>
      by_cases ha : c.active = true <;>
      simp [rangeVisits, Connection.Close, hcl, ha, ih] <;> aesop

theorem rangeVisits_visited (todo : List Connection) (m : Registry) :
    (rangeVisits todo m).events.filterMap visitedFd = todo.map fun c => c.fd := by
  induction todo generalizing m with
  | nil => simp [rangeVisits]
  | cons c todo ih =>
    by_cases hcl : (!c.graceful || c.idle) = true <;>
      by_cases ha : c.active = true <;>
      simp [rangeVisits, Connection.Close, hcl, ha, ih, visitedFd, List.filterMap_cons,
        List.filterMap_append]

theorem rangeVisits_connections_mem (todo : List Connection) (m : Registry)
    (x : Connection) :
    x ∈ (rangeVisits todo m).connections ↔
      x ∈ m ∧ ∀ c ∈ todo, (!c.graceful || c.idle) = true → c.active = true → c.fd ≠ x.fd := by
  induction todo generalizing m with
  | nil => simp [rangeVisits]
  | cons c todo ih =>
    by_cases hcl : (!c.graceful || c.idle) = true <;>
      by_cases ha : c.active = true <;>
      simp [rangeVisits, Connection.Close, Registry.delete, hcl, ha, ih, List.mem_filter] <;>
      aesop

theorem rangeVisits_rangeBegin_not_mem (todo : List Connection) (m : Registry) (n : Nat) :
    Event.rangeBegin n ∉ (rangeVisits todo m).events := by
  induction todo generalizing m with
  | nil => simp [rangeVisits]
  | cons c todo ih =>
    by_cases hcl : (!c.graceful || c.idle) = true <;>
      by_cases ha : c.active = true <;>
      simp [rangeVisits, Connection.Close, hcl, ha, ih]

theorem rangeVisits_hasConn (todo : List Connection) (m : Registry) :
    (rangeVisits todo m).hasConn = false ↔ todo = [] := by
  cases todo <;> simp [rangeVisits]

theorem sweep_hasConn (conns : Registry) : (sweep conns).hasConn = false ↔ conns = [] := by
  simp [sweep, rangeVisits_hasConn]

theorem sweep_rangeBegin_mem (conns : Registry) (n : Nat) :
    Event.rangeBegin n ∈ (sweep conns).events ↔ n = conns.length := by
  simp [sweep, rangeVisits_rangeBegin_not_mem]

theorem sweep_nil : sweep [] = { connections := [], events := [Event.rangeBegin 0],
                                 hasConn := false } := rfl

theorem closeLoop_returned_nil_iff (rounds : List Round) (conns : Registry) :
    (closeLoop rounds conns).status = CloseStatus.returned none ↔
      Event.rangeBegin 0 ∈ (closeLoop rounds conns).events := by
  induction rounds generalizing conns with
  | nil =>
    by_cases h : conns = []
    · subst h; simp [closeLoop, sweep_nil]
    · have hc : (sweep conns).hasConn = true := by
        cases hh : (sweep conns).hasConn
        · exact absurd ((sweep_hasConn conns).mp hh) h
        · rfl
      have hl : 0 ≠ conns.length := fun h0 => h (List.length_eq_zero.mp h0.symm)
      simp [closeLoop, hc, sweep_rangeBegin_mem, hl]
  | cons r rest ih =>
    by_cases h : conns = []
    · subst h; simp [closeLoop, sweep_nil]
    · have hc : (sweep conns).hasConn = true := by
        cases hh : (sweep conns).hasConn
        · exact absurd ((sweep_hasConn conns).mp hh) h
        · rfl
      have hl : 0 ≠ conns.length := fun h0 => h (List.length_eq_zero.mp h0.symm)
      cases hs : r.select with
      | ctxDone err => simp [closeLoop, hc, hs, sweep_rangeBegin_mem, hl]
      | tick => simp [closeLoop, hc, hs, CloseOut.after, sweep_rangeBegin_mem, hl, ih]

theorem closeLoop_deadline (pre : List Round) (r : Round) (rest : List Round)
    (err : GoError) (conns : Registry)
    (hwait : (closeLoop pre conns).status = CloseStatus.waiting)
    (hdone : r.select = SelectCase.ctxDone err) :
    (closeLoop (pre ++ r :: rest) conns).status = CloseStatus.returned (some err) := by
  induction pre generalizing conns with
  | nil =>
    cases hc : (sweep conns).hasConn
    · simp [closeLoop, hc] at hwait
    · simp [closeLoop, hc, hdone]
  | cons p ps ih =>
    cases hc : (sweep conns).hasConn
    · simp [closeLoop, hc] at hwait
    · cases hs : p.select with
      | ctxDone e => simp [closeLoop, hc, hs] at hwait
      | tick =>
        simp only [closeLoop, hc, hs, CloseOut.after, List.cons_append] at hwait ⊢
        simpa using ih _ (by simpa using hwait)

theorem closeLoop_returned_nil_last (rounds : List Round) (conns : Registry)
    (hnil : (closeLoop rounds conns).status = CloseStatus.returned none) :
    ∃ pre, (closeLoop rounds conns).events
      = pre ++ [Event.rangeBegin 0, Event.tickerStop] := by
  induction rounds generalizing conns with
  | nil =>
    by_cases h : conns = []
    · subst h; exact ⟨[], by simp [closeLoop, sweep_nil]⟩
    · have hc : (sweep conns).hasConn = true := by
        cases hh : (sweep conns).hasConn
        · exact absurd ((sweep_hasConn conns).mp hh) h
        · rfl
      simp [closeLoop, hc] at hnil
  | cons r rest ih =>
    by_cases h : conns = []
    · subst h; exact ⟨[], by simp [closeLoop, sweep_nil]⟩
    · have hc : (sweep conns).hasConn = true := by
        cases hh : (sweep conns).hasConn
        · exact absurd ((sweep_hasConn conns).mp hh) h
        · rfl
      cases hs : r.select with
      | ctxDone err => simp [closeLoop, hc, hs] at hnil
      | tick =>
        simp only [closeLoop, hc, hs, CloseOut.after] at hnil ⊢
        obtain ⟨pre, hpre⟩ := ih _ (by simpa using hnil)
        exact ⟨(sweep conns).events ++ pre, by simp [hpre]⟩

/-! ## Claims -/

/-- C1 (as stated, refuted): with network `"udp"` and address `"127.0.0.1:53"`,
`CreateListener` does not return at all, so it returns no failure value. -/
theorem CreateListener_udp_returns_nothing :
    ¬ ∃ r, CreateListener listenOk "udp" "127.0.0.1:53" = GoResult.ret r := by
  rintro ⟨r, h⟩
  simp [CreateListener, udpListener] at h

/-- C1 (amended): for every address string, and whatever `net.Listen` would do,
`CreateListener` called with network `"udp"` panics with the text `"not implement"`;
it returns neither a listener nor an error. -/
theorem CreateListener_udp_panics
    (netListen : String → String → Except GoError NetListener) (addr : String) :
    CreateListener netListen "udp" addr = GoResult.panic "not implement" := by
  simp [CreateListener, udpListener]

/-- C2 (code at the failing input): `DialTCP` with network `"tcp"`, a nil local
address and a nil remote address panics with a nil pointer dereference while building
the error, instead of returning the `errMissingAddress` error; with a non-nil local
address it does return that error, for each of `"tcp"`, `"tcp4"`, `"tcp6"`, whatever
the dialer would do. -/
theorem DialTCP_nil_local_nil_remote_panics
    (netDialTCP : String → TCPAddr → TCPAddr → Except GoError Int)
    (init : Int → Option GoError) :
    DialTCP netDialTCP init "tcp" none none = GoResult.panic nilDereference ∧
    ∀ l : TCPAddr,
      DialTCP netDialTCP init "tcp" (some l) none
        = GoResult.ret (none, some (DialError.op
            { op := "dial", net := "tcp", source := l, addr := none,
              err := errMissingAddress })) ∧
      DialTCP netDialTCP init "tcp4" (some l) none
        = GoResult.ret (none, some (DialError.op
            { op := "dial", net := "tcp4", source := l, addr := none,
              err := errMissingAddress })) ∧
      DialTCP netDialTCP init "tcp6" (some l) none
        = GoResult.ret (none, some (DialError.op
            { op := "dial", net := "tcp6", source := l, addr := none,
              err := errMissingAddress })) := by
  refine ⟨by simp [DialTCP, fieldTCPAddr, GoResult.andThen], fun l => ?_⟩
  simp [DialTCP, fieldTCPAddr, GoResult.andThen]

/-- C3 (code at the failing input): when `Control(PollReadable)` fails with `err`,
`Run` returns `err` and calls the quit callback with it, but then starts the accept
goroutine all the same, and that goroutine calls `Accept`. -/
theorem Run_failed_registration_still_accepts (err : GoError)
    (accepts : List AcceptResult) (conns : Registry) :
    (Run (some err) accepts conns).err = some err ∧
    ∃ tl, (Run (some err) accepts conns).events
      = [Event.controlReadable, Event.onQuit err, Event.goAcceptLoop, Event.accept] ++ tl := by
  obtain ⟨tl, h⟩ := acceptLoop_events_head accepts conns
  exact ⟨rfl, tl, by simp [Run, h]⟩

/-- Supporting lemma: a temporary `*net.OpError` whose text does not contain `"closed"`
makes the accept loop call `Accept`, log the error and sleep, and go on with the
following accepts, starting with a new call of `Accept`. -/
theorem acceptLoop_retries_plain_temporary (err : GoError) (rest : List AcceptResult)
    (conns : Registry) (hop : err.isOpError = true) (htemp : err.temporary = true)
    (hclosed : stringsContains err.msg "closed" = false) :
    acceptLoop (AcceptResult.failed err :: rest) conns
      = (acceptLoop rest conns).after
          [Event.accept, Event.logAcceptFailed err.msg, Event.sleep] ∧
    ∃ tl, (acceptLoop rest conns).events = Event.accept :: tl := by
  refine ⟨?_, acceptLoop_events_head rest conns⟩
  simp [acceptLoop, OnRead, hop, htemp, hclosed]

/-- C4 (code at the failing input): the accept error `errTooManyFiles` (out of
descriptors on a Unix listener bound at `/tmp/closed.sock`) is a temporary
`*net.OpError`; the loop does sleep and accept again, but before that it detaches the
listening operator and calls the quit callback with the error, because the text
contains `"closed"`. -/
theorem acceptLoop_temporary_error_quits :
    errTooManyFiles.isOpError = true ∧ errTooManyFiles.temporary = true ∧
    acceptLoop [AcceptResult.failed errTooManyFiles] []
      = { connections := [],
          events := [Event.accept, Event.controlDetach, Event.onQuit errTooManyFiles,
                     Event.sleep, Event.accept],
          status := LoopStatus.accepting } := by
  decide

/-- C5 (as stated, refuted): after the accept error `errInvalidArgument`, which is
neither temporary nor about a closed listener, the goroutine returns: the second
scripted accept is never attempted. -/
theorem acceptLoop_other_error_ends_loop :
    errInvalidArgument.temporary = false ∧
    stringsContains errInvalidArgument.msg "closed" = false ∧
    acceptLoop [AcceptResult.failed errInvalidArgument, AcceptResult.nilConn] []
      = { connections := [],
          events := [Event.accept, Event.logAcceptFailed errInvalidArgument.msg],
          status := LoopStatus.returned } := by
  decide

/-- C5 (amended): for every accept error that is neither temporary nor a listener
closed condition (its text does not contain `"closed"`), the accept loop logs the
error and then ends: the goroutine returns, and the `Accept` call that failed is the
only one it makes, however many further results the listener had in store. -/
theorem acceptLoop_other_error_logs_and_returns (err : GoError)
    (rest : List AcceptResult) (conns : Registry)
    (htemp : err.temporary = false)
    (hclosed : stringsContains err.msg "closed" = false) :
    (acceptLoop (AcceptResult.failed err :: rest) conns).status = LoopStatus.returned ∧
    Event.logAcceptFailed err.msg ∈ (acceptLoop (AcceptResult.failed err :: rest) conns).events ∧
    (acceptLoop (AcceptResult.failed err :: rest) conns).events.count Event.accept = 1 := by
  simp [acceptLoop, OnRead, hclosed, htemp]

/-- Witness of C5 (amended) on the error `errBadDescriptor`, with a further accept
result in store. -/
theorem acceptLoop_other_error_logs_and_returns_witness :
    (errBadDescriptor.temporary = false ∧
      stringsContains errBadDescriptor.msg "closed" = false) ∧
    (acceptLoop [AcceptResult.failed errBadDescriptor, AcceptResult.nilConn] []).status
      = LoopStatus.returned ∧
    Event.logAcceptFailed errBadDescriptor.msg
      ∈ (acceptLoop [AcceptResult.failed errBadDescriptor, AcceptResult.nilConn] []).events ∧
    (acceptLoop [AcceptResult.failed errBadDescriptor, AcceptResult.nilConn] []).events.count
      Event.accept = 1 :=
  ⟨by decide,
   acceptLoop_other_error_logs_and_returns errBadDescriptor [AcceptResult.nilConn] []
     (by decide) (by decide)⟩

/-- C6 (as stated, refuted): the text of `errTooManyFiles` contains `"closed"`, yet
after it the loop does not end: it sleeps and accepts again, and a second such error
makes it call the quit callback a second time. -/
theorem acceptLoop_closed_text_does_not_end_loop :
    stringsContains errTooManyFiles.msg "closed" = true ∧
    acceptLoop [AcceptResult.failed errTooManyFiles, AcceptResult.failed errTooManyFiles] []
      = { connections := [],
          events := [Event.accept, Event.controlDetach, Event.onQuit errTooManyFiles,
                     Event.sleep,
                     Event.accept, Event.controlDetach, Event.onQuit errTooManyFiles,
                     Event.sleep,
                     Event.accept],
          status := LoopStatus.accepting } := by
  decide

/-- C6 (amended): for every accept error whose text contains `"closed"` and that is not
a temporary `*net.OpError`, the accept loop calls `Accept`, detaches the listening
operator, calls the quit callback once with that same error and returns: no further
accept is attempted and the loop makes no further call of the quit callback. -/
theorem acceptLoop_closed_error_quits_and_returns (err : GoError)
    (rest : List AcceptResult) (conns : Registry)
    (hclosed : stringsContains err.msg "closed" = true)
    (htemp : (err.isOpError && err.temporary) = false) :
    acceptLoop (AcceptResult.failed err :: rest) conns
      = { connections := conns,
          events := [Event.accept, Event.controlDetach, Event.onQuit err],
          status := LoopStatus.returned } := by
  simp [acceptLoop, OnRead, hclosed]
  intro h1 h2
  simp [h1, h2] at htemp

/-- Witness of C6 (amended) on the error `errListenerClosed`. -/
theorem acceptLoop_closed_error_quits_and_returns_witness :
    (stringsContains errListenerClosed.msg "closed" = true ∧
      (errListenerClosed.isOpError && errListenerClosed.temporary) = false) ∧
    acceptLoop [AcceptResult.failed errListenerClosed, AcceptResult.nilConn] []
      = { connections := [],
          events := [Event.accept, Event.controlDetach, Event.onQuit errListenerClosed],
          status := LoopStatus.returned } :=
  ⟨by decide,
   acceptLoop_closed_error_quits_and_returns errListenerClosed [AcceptResult.nilConn] []
     (by decide) (by decide)⟩

/-- C10: when `OnRead` accepts a socket whose connection is not active after
`connection.init`, it returns nil, leaves the registry as it was, and makes no call
beyond `Accept` and `init`: no close callback is registered, no connection is closed,
no reading goroutine is started, nothing is stored and the on-connect hook is not
called. -/
theorem OnRead_inactive_connection_discarded (c : Connection) (conns : Registry)
    (hinactive : c.active = false) :
    (OnRead (AcceptResult.conn c) conns).err = none ∧
    (OnRead (AcceptResult.conn c) conns).connections = conns ∧
    (OnRead (AcceptResult.conn c) conns).events = [Event.accept, Event.connInit c.fd] ∧
    ∀ fd : Int,
      Event.addCloseCallback fd ∉ (OnRead (AcceptResult.conn c) conns).events ∧
      Event.connClose fd ∉ (OnRead (AcceptResult.conn c) conns).events ∧
      Event.delete fd ∉ (OnRead (AcceptResult.conn c) conns).events ∧
      Event.goReader fd ∉ (OnRead (AcceptResult.conn c) conns).events ∧
      Event.store fd ∉ (OnRead (AcceptResult.conn c) conns).events ∧
      Event.onConnect fd ∉ (OnRead (AcceptResult.conn c) conns).events := by
  simp [OnRead, hinactive]

/-- Witness of C10 on an inactive connection arriving at a server holding one
connection. -/
theorem OnRead_inactive_connection_discarded_witness :
    (OnRead (AcceptResult.conn { fd := 7, active := false, graceful := true, idle := true })
        [{ fd := 5, active := true, graceful := true, idle := false }]).connections
      = [{ fd := 5, active := true, graceful := true, idle := false }] :=
  (OnRead_inactive_connection_discarded
    { fd := 7, active := false, graceful := true, idle := true }
    [{ fd := 5, active := true, graceful := true, idle := false }] rfl).2.1

/-- C8: in a sweep of `Close` over a registry whose keys are distinct, the function
passed to `Range` is invoked exactly once on every registered entry; every registered
connection that reports idle has `Close()` called on it; every registered connection
that reports non-idle has no `Close()` called on it and is still in the registry after
the sweep. -/
theorem sweep_closes_idle_keeps_busy (conns : Registry)
    (hkeys : (conns.map fun c => c.fd).Nodup) :
    (sweep conns).events.filterMap visitedFd = (conns.map fun c => c.fd) ∧
    (∀ c ∈ conns, c.idle = true → Event.connClose c.fd ∈ (sweep conns).events) ∧
    (∀ c ∈ conns, c.graceful = true → c.idle = false →
      Event.connClose c.fd ∉ (sweep conns).events ∧ c ∈ (sweep conns).connections) := by
  have hinj := List.inj_on_of_nodup_map hkeys
  refine ⟨?_, ?_, ?_⟩
  · simp [sweep, List.filterMap_cons, visitedFd, rangeVisits_visited]
  · intro c hc hidle
    simp only [sweep, List.mem_cons, rangeVisits_connClose_mem]
    exact Or.inr ⟨c, hc, rfl, by simp [hidle]⟩
  · intro c hc hg hidle
    constructor
    · simp only [sweep, List.mem_cons, rangeVisits_connClose_mem, not_or, not_exists, not_and]
      refine ⟨by simp, fun c2 hc2 hfd => ?_⟩
      have : c2 = c := hinj hc2 hc hfd
      subst this
      simp [hg, hidle]
    · simp only [sweep, rangeVisits_connections_mem]
      refine ⟨hc, fun c2 hc2 hcl _ hfd => ?_⟩
      have : c2 = c := hinj hc2 hc hfd
      subst this
      simp [hg, hidle] at hcl

/-- Witness of C8 on a registry holding one idle and one busy connection. -/
theorem sweep_closes_idle_keeps_busy_witness :
    ([connIdle, connBusy].map fun c => c.fd).Nodup ∧
    (sweep [connIdle, connBusy]).events.filterMap visitedFd = [5, 6] ∧
    Event.connClose 5 ∈ (sweep [connIdle, connBusy]).events ∧
    Event.connClose 6 ∉ (sweep [connIdle, connBusy]).events ∧
    connBusy ∈ (sweep [connIdle, connBusy]).connections :=
  have h := sweep_closes_idle_keeps_busy [connIdle, connBusy] (by decide)
  ⟨by decide, h.1, h.2.1 connIdle (by decide) rfl,
   (h.2.2 connBusy (by decide) rfl rfl).1, (h.2.2 connBusy (by decide) rfl rfl).2⟩

/-- C9 (as stated, refuted): on an active connection offered non-empty space, a read
that fails with the timeout `errBareTimeout`, which is not a `*net.OpError`, is not
retried: the loop stops and the connection is closed, and the following iteration, in
which four bytes were ready, never takes place. -/
theorem readLoop_bare_timeout_closes :
    errBareTimeout.timeout = true ∧
    readLoop 9 0 [iterBareTimeout, iterFourBytes]
      = { events := [Event.read 9, Event.connClose 9], status := ReaderStatus.stopped } := by
  decide

/-- C9 (amended): one iteration of the reading loop on an active connection that was
offered non-empty space, the read deadline, if any, having been armed without error.
If the read fails with a timeout condition carried by a `*net.OpError` (its
`Timeout()` is true), the iteration sleeps and the loop goes on, with no `Close()`.
If the read fails with any other error, a timeout carried by another error type
included, the loop stops and the connection is closed. If the read succeeds with
`n` bytes, `inputAck(n)` is called; when it succeeds the loop goes on with no
`Close()`, and when it fails the loop stops and the connection is closed. -/
theorem readLoop_iteration (fd : Int) (readTimeout : Nat) (it : ReadIter)
    (rest : List ReadIter) (hactive : it.active = true) (hspace : 0 < it.space)
    (harmed : readTimeout = 0 ∨ it.deadlineErr = none) :
    (∀ err, it.read = Except.error err → (err.isOpError && err.timeout) = true →
      readLoop fd readTimeout (it :: rest)
        = (readLoop fd readTimeout rest).after
            (deadlineEvents fd readTimeout ++ [Event.read fd, Event.sleep])) ∧
    (∀ err, it.read = Except.error err → (err.isOpError && err.timeout) = false →
      readLoop fd readTimeout (it :: rest)
        = { events := deadlineEvents fd readTimeout ++ [Event.read fd, Event.connClose fd],
            status := ReaderStatus.stopped }) ∧
    (∀ n, it.read = Except.ok n → it.ackErr = none →
      readLoop fd readTimeout (it :: rest)
        = (readLoop fd readTimeout rest).after
            (deadlineEvents fd readTimeout ++ [Event.read fd, Event.inputAck fd n])) ∧
    (∀ n, it.read = Except.ok n → it.ackErr ≠ none →
      readLoop fd readTimeout (it :: rest)
        = { events := deadlineEvents fd readTimeout
                        ++ [Event.read fd, Event.inputAck fd n, Event.connClose fd],
            status := ReaderStatus.stopped }) := by
  have hguard : ¬ (readTimeout > 0 ∧ it.deadlineErr ≠ none) := by
    rintro ⟨h1, h2⟩
    rcases harmed with h | h
    · omega
    · exact h2 h
  refine ⟨?_, ?_, ?_, ?_⟩
  · intro err hr ht
    simp only [readLoop, hactive, hspace, hr, ht, hguard]
    simp
  · intro err hr ht
    simp only [readLoop, hactive, hspace, hr, ht, hguard]
    simp [readerStop]
  · intro n hr hack
    simp only [readLoop, hactive, hspace, hr, hack, hguard]
    simp
  · intro n hr hack
    obtain ⟨e, he⟩ := Option.ne_none_iff_exists'.mp hack
    simp only [readLoop, hactive, hspace, hr, he, hguard]
    simp [readerStop]

/-- Witness of C9 (amended) on an iteration whose read times out with a `*net.OpError`,
a read timeout being set. -/
theorem readLoop_iteration_witness :
    readLoop 9 30 [iterTimeout]
      = { events := [Event.setReadDeadline 9, Event.read 9, Event.sleep],
          status := ReaderStatus.looping } :=
  (readLoop_iteration 9 30 iterTimeout [] rfl (by decide) (Or.inr rfl)).1
    errReadTimeout rfl rfl

/-- C7: `Close` returns nil exactly when one of its sweeps found the registry empty
(a `Range` over zero entries); if the `select` takes the `ctx.Done()` case while every
sweep so far has found a connection, `Close` returns the context's error; called on
an empty registry it returns nil; and when it returns nil, the last sweep it made is
one that found the registry empty. -/
theorem Close_result (rounds : List Round) (conns : Registry) :
    ((Close rounds conns).status = CloseStatus.returned none ↔
      Event.rangeBegin 0 ∈ (Close rounds conns).events) ∧
    (∀ (pre : List Round) (r : Round) (rest : List Round) (err : GoError),
      (Close pre conns).status = CloseStatus.waiting →
      r.select = SelectCase.ctxDone err →
      (Close (pre ++ r :: rest) conns).status = CloseStatus.returned (some err)) ∧
    (conns = [] → (Close rounds conns).status = CloseStatus.returned none) ∧
    ((Close rounds conns).status = CloseStatus.returned none →
      ∃ pre, (Close rounds conns).events
        = pre ++ [Event.rangeBegin 0, Event.tickerStop]) := by
  refine ⟨?_, ?_, ?_, ?_⟩
  · simpa [Close, CloseOut.after] using closeLoop_returned_nil_iff rounds conns
  · intro pre r rest err hwait hdone
    simpa [Close, CloseOut.after] using
      closeLoop_deadline pre r rest err conns (by simpa [Close, CloseOut.after] using hwait)
        hdone
  · intro h
    subst h
    cases rounds <;> simp [Close, CloseOut.after, closeLoop, sweep_nil]
  · intro hnil
    obtain ⟨pre, hpre⟩ := closeLoop_returned_nil_last rounds conns
      (by simpa [Close, CloseOut.after] using hnil)
    exact ⟨[Event.controlDetach, Event.lnClose, Event.newTicker] ++ pre,
      by simp [Close, CloseOut.after, hpre]⟩

/-- Witness of C7: with one busy connection and the deadline passing during the first
wait, `Close` returns the deadline error; on an empty registry it returns nil. -/
theorem Close_result_witness :
    (Close [] [connBusy]).status = CloseStatus.waiting ∧
    (Close [{ changes := [], select := SelectCase.ctxDone errDeadlineExceeded }]
        [connBusy]).status = CloseStatus.returned (some errDeadlineExceeded) ∧
    (Close [] []).status = CloseStatus.returned none :=
  ⟨by decide,
   (Close_result [] [connBusy]).2.1 []
     { changes := [], select := SelectCase.ctxDone errDeadlineExceeded } []
     errDeadlineExceeded (by decide) rfl,
   (Close_result [] []).2.2.1 rfl⟩

end Netpoll
